import Mathlib

/-!
Shallow embedding of `src/relay_leaf.py`: a ctypes binding over the native
relay-client library `relay_leaf_win64.dll`, plus its console demo `main`.

Modelling conventions:
* A Python `c_void_p` handle (or `None`) is a `Nat`; `0` encodes every value
  that is falsy under `if not self._handle` (both `None` and a NULL pointer).
* A native `char*` is `Option String`; `none` encodes a NULL pointer.
* The native library is opaque, so wrapper methods are parameterized by an
  oracle `NativeLib σ` whose calls may either raise a ctypes-level exception
  (`Except.error ()`) or return an `Int` result code together with the next
  native state.
* Each wrapper method returns a `MethodOut`: the Python-level outcome
  (`Except PyError α`: normal return or a raised exception), the new wrapper
  state, the new native state, and the ordered list of native calls made.
-/

/-- Outcome of a Python-level call: a normal return or a raised exception. -/
inductive PyError where
  /-- `raise RuntimeError(msg)` raised by the wrapper itself. -/
  | runtimeError (msg : String)
  /-- An exception propagating out of a native (ctypes) call. -/
  | nativeExn
deriving DecidableEq, Repr

/-- One invocation of a native entry point, as recorded in a call trace. -/
inductive NativeCall where
  | create (verbose : Bool)
  | setDiscoveryUrl (h : Nat) (url : String)
  | setPartnerId (h : Nat) (pid : String)
  | addProxy (h : Nat) (url : String)
  | startCall (h : Nat)
  | stopCall (h : Nat)
  | destroyCall (h : Nat)
  | getStats (h : Nat)
  | freeStats
  | freeString
  | errorMessage (code : Int)
  | versionCall
  | getDeviceId (h : Nat)
deriving DecidableEq, Repr

/-- The native statistics struct `RelayLeafStats` (`c_longlong` as `Int`,
`c_int` as `Int`, `c_bool` as `Bool`, `c_void_p` string fields as
`Option String` with `none` for NULL). -/
structure RelayLeafStats where
  uptime_seconds : Int
  total_streams : Int
  bytes_sent : Int
  bytes_received : Int
  reconnect_count : Int
  last_error : Option String
  exit_points_json : Option String
  node_addresses_json : Option String
  active_streams : Int
  connected_nodes : Int
  connected : Bool
deriving DecidableEq, Repr

/-- The dictionary built by `RelayLeaf.get_stats` on success. -/
structure StatsDict where
  connected : Bool
  connected_nodes : Int
  uptime_seconds : Int
  active_streams : Int
  total_streams : Int
  bytes_sent : Int
  bytes_received : Int
  reconnect_count : Int
  last_error : Option String
  exit_points_json : Option String
  node_addresses_json : Option String
deriving DecidableEq, Repr

/-- Oracle for the opaque native library over a native-state type `σ`.
Each call either raises a ctypes-level exception (`Except.error ()`) or
returns its `Int` result code (plus out-parameters) and the next native
state.  `error_message` and `version` return a string pointer directly. -/
structure NativeLib (σ : Type) where
  create : σ → Bool → Except Unit (Int × Nat × σ)
  set_discovery_url : σ → Nat → String → Except Unit (Int × σ)
  set_partner_id : σ → Nat → String → Except Unit (Int × σ)
  add_proxy : σ → Nat → String → Except Unit (Int × σ)
  start : σ → Nat → Except Unit (Int × σ)
  stop : σ → Nat → Except Unit (Int × σ)
  destroy : σ → Nat → Except Unit (Int × σ)
  get_stats : σ → Nat → Except Unit (Int × RelayLeafStats × σ)
  error_message : σ → Int → Option String
  version : σ → Option String
  get_device_id : σ → Nat → Except Unit (Option String × σ)

/-- The wrapper object's own mutable state: `self._handle` (0 = falsy). -/
structure LeafState where
  handle : Nat
deriving DecidableEq, Repr

/-- Result of running one wrapper method. -/
structure MethodOut (σ : Type) (α : Type) where
  result : Except PyError α
  leaf : LeafState
  native : σ
  calls : List NativeCall
deriving Repr

/-- `RelayLeaf.get_error_text`: look up the message for a code via
`relay_leaf_error_message`, decode-and-free, falling back to
`"error_code=<code>"` when the pointer is NULL or the string empty
(Python `msg if msg else ...`).  Returns the text and the native calls. -/
def RelayLeaf.get_error_text {σ : Type} (lib : NativeLib σ) (st : σ) (code : Int) :
    String × List NativeCall :=
  match lib.error_message st code with
  | some m =>
      (if m = "" then "error_code=" ++ toString code else m,
       [NativeCall.errorMessage code, NativeCall.freeString])
  | none => ("error_code=" ++ toString code, [NativeCall.errorMessage code])

/-- `RelayLeaf._check`: raise `RuntimeError(f"{api} failed: {code} ({msg})")`
when a native result code is non-zero. -/
def RelayLeaf.check {σ : Type} (lib : NativeLib σ) (st : σ) (code : Int) (api : String) :
    Except PyError Unit × List NativeCall :=
  if code ≠ 0 then
    let r := RelayLeaf.get_error_text lib st code
    (Except.error (PyError.runtimeError
      (api ++ " failed: " ++ toString code ++ " (" ++ r.1 ++ ")")), r.2)
  else (Except.ok (), [])

/-- `RelayLeaf.create`: call `relay_leaf_create`, `_check` the code, then
store the out-handle in `self._handle`. -/
def RelayLeaf.create {σ : Type} (lib : NativeLib σ) (leaf : LeafState) (st : σ)
    (verbose : Bool) : MethodOut σ Unit :=
  match lib.create st verbose with
  | Except.error _ => ⟨Except.error PyError.nativeExn, leaf, st, [NativeCall.create verbose]⟩
  | Except.ok (rc, h, st') =>
      let c := RelayLeaf.check lib st' rc "relay_leaf_create"
      match c.1 with
      | Except.error e => ⟨Except.error e, leaf, st', NativeCall.create verbose :: c.2⟩
      | Except.ok _ => ⟨Except.ok (), ⟨h⟩, st', NativeCall.create verbose :: c.2⟩

/-- `RelayLeaf.get_device_id`: returns `""` with no native call when the
handle is falsy; otherwise decode-and-free the returned pointer, with `""`
as the fallback for NULL or empty. -/
def RelayLeaf.get_device_id {σ : Type} (lib : NativeLib σ) (leaf : LeafState) (st : σ) :
    MethodOut σ String :=
  if leaf.handle = 0 then ⟨Except.ok "", leaf, st, []⟩
  else
    match lib.get_device_id st leaf.handle with
    | Except.error _ =>
        ⟨Except.error PyError.nativeExn, leaf, st, [NativeCall.getDeviceId leaf.handle]⟩
    | Except.ok (ptr, st') =>
        match ptr with
        | some s =>
            ⟨Except.ok (if s = "" then "" else s), leaf, st',
             [NativeCall.getDeviceId leaf.handle, NativeCall.freeString]⟩
        | none => ⟨Except.ok "", leaf, st', [NativeCall.getDeviceId leaf.handle]⟩

/-- `RelayLeaf.set_discovery_url`: raises `RuntimeError("Client not created")`
on a falsy handle, otherwise calls the native setter and `_check`s. -/
def RelayLeaf.set_discovery_url {σ : Type} (lib : NativeLib σ) (leaf : LeafState) (st : σ)
    (url : String) : MethodOut σ Unit :=
  if leaf.handle = 0 then
    ⟨Except.error (PyError.runtimeError "Client not created"), leaf, st, []⟩
  else
    match lib.set_discovery_url st leaf.handle url with
    | Except.error _ =>
        ⟨Except.error PyError.nativeExn, leaf, st, [NativeCall.setDiscoveryUrl leaf.handle url]⟩
    | Except.ok (rc, st') =>
        let c := RelayLeaf.check lib st' rc "relay_leaf_set_discovery_url"
        ⟨c.1, leaf, st', NativeCall.setDiscoveryUrl leaf.handle url :: c.2⟩

/-- `RelayLeaf.set_partner_id`: same shape as `set_discovery_url`. -/
def RelayLeaf.set_partner_id {σ : Type} (lib : NativeLib σ) (leaf : LeafState) (st : σ)
    (pid : String) : MethodOut σ Unit :=
  if leaf.handle = 0 then
    ⟨Except.error (PyError.runtimeError "Client not created"), leaf, st, []⟩
  else
    match lib.set_partner_id st leaf.handle pid with
    | Except.error _ =>
        ⟨Except.error PyError.nativeExn, leaf, st, [NativeCall.setPartnerId leaf.handle pid]⟩
    | Except.ok (rc, st') =>
        let c := RelayLeaf.check lib st' rc "relay_leaf_set_partner_id"
        ⟨c.1, leaf, st', NativeCall.setPartnerId leaf.handle pid :: c.2⟩

/-- `RelayLeaf.add_proxy`: raises on a falsy handle; on a non-zero native
code it prints (via `get_error_text`) and returns `False`; on code 0 it
returns `True`. -/
def RelayLeaf.add_proxy {σ : Type} (lib : NativeLib σ) (leaf : LeafState) (st : σ)
    (proxy_url : String) : MethodOut σ Bool :=
  if leaf.handle = 0 then
    ⟨Except.error (PyError.runtimeError "Client not created"), leaf, st, []⟩
  else
    match lib.add_proxy st leaf.handle proxy_url with
    | Except.error _ =>
        ⟨Except.error PyError.nativeExn, leaf, st, [NativeCall.addProxy leaf.handle proxy_url]⟩
    | Except.ok (rc, st') =>
        if rc ≠ 0 then
          ⟨Except.ok false, leaf, st',
           NativeCall.addProxy leaf.handle proxy_url :: (RelayLeaf.get_error_text lib st' rc).2⟩
        else ⟨Except.ok true, leaf, st', [NativeCall.addProxy leaf.handle proxy_url]⟩

/-- `RelayLeaf.start`: raises on a falsy handle, otherwise calls
`relay_leaf_start` and `_check`s the code. -/
def RelayLeaf.start {σ : Type} (lib : NativeLib σ) (leaf : LeafState) (st : σ) :
    MethodOut σ Unit :=
  if leaf.handle = 0 then
    ⟨Except.error (PyError.runtimeError "Client not created"), leaf, st, []⟩
  else
    match lib.start st leaf.handle with
    | Except.error _ =>
        ⟨Except.error PyError.nativeExn, leaf, st, [NativeCall.startCall leaf.handle]⟩
    | Except.ok (rc, st') =>
        let c := RelayLeaf.check lib st' rc "relay_leaf_start"
        ⟨c.1, leaf, st', NativeCall.startCall leaf.handle :: c.2⟩

/-- `RelayLeaf.stop`: returns silently on a falsy handle; otherwise calls
`relay_leaf_stop` inside `try/except`, swallowing any exception and
ignoring the result code. -/
def RelayLeaf.stop {σ : Type} (lib : NativeLib σ) (leaf : LeafState) (st : σ) :
    MethodOut σ Unit :=
  if leaf.handle = 0 then ⟨Except.ok (), leaf, st, []⟩
  else
    match lib.stop st leaf.handle with
    | Except.error _ => ⟨Except.ok (), leaf, st, [NativeCall.stopCall leaf.handle]⟩
    | Except.ok (_, st') => ⟨Except.ok (), leaf, st', [NativeCall.stopCall leaf.handle]⟩

/-- `RelayLeaf.destroy`: returns silently on a falsy handle; otherwise calls
`relay_leaf_destroy` inside `try/except` and then sets `self._handle = None`
unconditionally. -/
def RelayLeaf.destroy {σ : Type} (lib : NativeLib σ) (leaf : LeafState) (st : σ) :
    MethodOut σ Unit :=
  if leaf.handle = 0 then ⟨Except.ok (), leaf, st, []⟩
  else
    match lib.destroy st leaf.handle with
    | Except.error _ => ⟨Except.ok (), ⟨0⟩, st, [NativeCall.destroyCall leaf.handle]⟩
    | Except.ok (_, st') => ⟨Except.ok (), ⟨0⟩, st', [NativeCall.destroyCall leaf.handle]⟩

/-- `RelayLeaf.get_stats`: returns `None` with no native call on a falsy
handle; on a non-zero code prints (via `get_error_text`) and returns `None`;
on success builds the eleven-field dictionary from the struct (string
pointers via `_ptr_to_string`, NULL becoming `None`) and frees the struct. -/
def RelayLeaf.get_stats {σ : Type} (lib : NativeLib σ) (leaf : LeafState) (st : σ) :
    MethodOut σ (Option StatsDict) :=
  if leaf.handle = 0 then ⟨Except.ok none, leaf, st, []⟩
  else
    match lib.get_stats st leaf.handle with
    | Except.error _ =>
        ⟨Except.error PyError.nativeExn, leaf, st, [NativeCall.getStats leaf.handle]⟩
    | Except.ok (rc, s, st') =>
        if rc ≠ 0 then
          ⟨Except.ok none, leaf, st',
           NativeCall.getStats leaf.handle :: (RelayLeaf.get_error_text lib st' rc).2⟩
        else
          ⟨Except.ok (some
            { connected := s.connected
              connected_nodes := s.connected_nodes
              uptime_seconds := s.uptime_seconds
              active_streams := s.active_streams
              total_streams := s.total_streams
              bytes_sent := s.bytes_sent
              bytes_received := s.bytes_received
              reconnect_count := s.reconnect_count
              last_error := s.last_error
              exit_points_json := s.exit_points_json
              node_addresses_json := s.node_addresses_json }), leaf, st',
           [NativeCall.getStats leaf.handle, NativeCall.freeStats]⟩

/-- `RelayLeaf.get_version`: decode-and-free `relay_leaf_version()`,
falling back to `"unknown"` for NULL or empty. -/
def RelayLeaf.get_version {σ : Type} (lib : NativeLib σ) (leaf : LeafState) (st : σ) :
    MethodOut σ String :=
  match lib.version st with
  | some s =>
      ⟨Except.ok (if s = "" then "unknown" else s), leaf, st,
       [NativeCall.versionCall, NativeCall.freeString]⟩
  | none => ⟨Except.ok "unknown", leaf, st, [NativeCall.versionCall]⟩

/-- The error-code constants of class `RelayLeafError`. -/
def RelayLeafError.OK : Int := 0

/-- `NULL_PARAM = 1`. -/
def RelayLeafError.NULL_PARAM : Int := 1

/-- `INVALID_HANDLE = 2`. -/
def RelayLeafError.INVALID_HANDLE : Int := 2

/-- `CREATE_FAILED = 3`. -/
def RelayLeafError.CREATE_FAILED : Int := 3

/-- `START_FAILED = 4`. -/
def RelayLeafError.START_FAILED : Int := 4

/-- `ALREADY_STARTED = 5`. -/
def RelayLeafError.ALREADY_STARTED : Int := 5

/-- `NOT_STARTED = 6`. -/
def RelayLeafError.NOT_STARTED : Int := 6

/-- `INVALID_PROXY = 7`. -/
def RelayLeafError.INVALID_PROXY : Int := 7

/-- `INTERNAL = 99`. -/
def RelayLeafError.INTERNAL : Int := 99

/-! ## Spec-modelled native library

The native library `relay_leaf_win64.dll` is not part of the repository; the
binding only calls it.  The following state machine models its session
behaviour from the specification (session lifecycle, configuration
immutability after start, proxy validation, stats counters and background
activity), so that claims decided by native behaviour can be settled. -/

/-- Modelled from the spec: lifecycle state of the single native session,
"uninitialized → created → started → stopped → destroyed" (destroyed and
uninitialized are `none` at the `SpecNative` level). -/
inductive SpecPhase where
  | created
  | started
  | stopped
deriving DecidableEq, Repr

/-- Modelled from the spec: the native session object — identity,
configuration, lifecycle phase and the counters surfaced by stats. -/
structure SpecSession where
  handle : Nat
  phase : SpecPhase
  discoveryUrl : Option String
  partnerId : Option String
  proxies : List String
  uptimeSeconds : Int
  totalStreams : Int
  activeStreams : Int
  bytesSent : Int
  bytesReceived : Int
  reconnectCount : Int
  lastError : Option String
  connected : Bool
  connectedNodes : Int
  exitPointsJson : String
  nodeAddressesJson : String
deriving DecidableEq, Repr

/-- Modelled from the spec: the native library's global state — at most one
live session (`none` before `create` and after `destroy`). -/
def SpecNative : Type := Option SpecSession

/-- The URL starts with the given scheme prefix and its remainder is a
nonempty host part containing a host:port colon. -/
def schemeOk (scheme url : String) : Bool :=
  scheme.data.isPrefixOf url.data &&
  (url.data.drop scheme.data.length ≠ []) &&
  (url.data.drop scheme.data.length).contains ':'

/-- Modelled from the spec: proxy URL validation,
`scheme://[user:pass@]host:port` with scheme in \x7bsocks5, http\x7d; the
remainder must be nonempty and contain a host:port colon. -/
def specValidProxy (url : String) : Bool :=
  schemeOk "socks5://" url || schemeOk "http://" url

/-- Look up the session for a handle; fails on a stale or foreign handle. -/
def specLookup (st : SpecNative) (h : Nat) : Option SpecSession :=
  match st with
  | some s => if s.handle = h then some s else none
  | none => none

/-- Modelled from the spec: `relay_leaf_create` — allocates the session with
a fresh non-NULL handle. -/
def specCreate (st : SpecNative) (_verbose : Bool) : Int × Nat × SpecNative :=
  match st with
  | some _ => (RelayLeafError.CREATE_FAILED, 0, st)
  | none =>
      (RelayLeafError.OK, 1, some
        { handle := 1, phase := SpecPhase.created, discoveryUrl := none,
          partnerId := none, proxies := [], uptimeSeconds := 0,
          totalStreams := 0, activeStreams := 0, bytesSent := 0,
          bytesReceived := 0, reconnectCount := 0, lastError := none,
          connected := false, connectedNodes := 0, exitPointsJson := "[]",
          nodeAddressesJson := "[]" })

/-- Modelled from the spec: `relay_leaf_set_discovery_url` — configuration is
immutable once `start` has been invoked. -/
def specSetDiscoveryUrl (st : SpecNative) (h : Nat) (url : String) : Int × SpecNative :=
  match specLookup st h with
  | none => (RelayLeafError.INVALID_HANDLE, st)
  | some s =>
      match s.phase with
      | SpecPhase.created => (RelayLeafError.OK, some { s with discoveryUrl := some url })
      | _ => (RelayLeafError.ALREADY_STARTED, st)

/-- Modelled from the spec: `relay_leaf_set_partner_id`. -/
def specSetPartnerId (st : SpecNative) (h : Nat) (pid : String) : Int × SpecNative :=
  match specLookup st h with
  | none => (RelayLeafError.INVALID_HANDLE, st)
  | some s =>
      match s.phase with
      | SpecPhase.created => (RelayLeafError.OK, some { s with partnerId := some pid })
      | _ => (RelayLeafError.ALREADY_STARTED, st)

/-- Modelled from the spec: `relay_leaf_add_proxy` — an invalid URL is
rejected with `InvalidProxy` and has no effect on the session or the
previously accepted proxies. -/
def specAddProxy (st : SpecNative) (h : Nat) (url : String) : Int × SpecNative :=
  match specLookup st h with
  | none => (RelayLeafError.INVALID_HANDLE, st)
  | some s =>
      match s.phase with
      | SpecPhase.created =>
          if specValidProxy url then
            (RelayLeafError.OK, some { s with proxies := s.proxies ++ [url] })
          else (RelayLeafError.INVALID_PROXY, st)
      | _ => (RelayLeafError.ALREADY_STARTED, st)

/-- Modelled from the spec: `relay_leaf_start` — `AlreadyStarted` on a second
start; a stopped session cannot restart. -/
def specStart (st : SpecNative) (h : Nat) : Int × SpecNative :=
  match specLookup st h with
  | none => (RelayLeafError.INVALID_HANDLE, st)
  | some s =>
      match s.phase with
      | SpecPhase.created => (RelayLeafError.OK, some { s with phase := SpecPhase.started })
      | SpecPhase.started => (RelayLeafError.ALREADY_STARTED, st)
      | SpecPhase.stopped => (RelayLeafError.START_FAILED, st)

/-- Modelled from the spec: `relay_leaf_stop` — idempotent, never fails. -/
def specStop (st : SpecNative) (h : Nat) : Int × SpecNative :=
  match specLookup st h with
  | none => (RelayLeafError.OK, st)
  | some s =>
      match s.phase with
      | SpecPhase.started =>
          (RelayLeafError.OK, some { s with phase := SpecPhase.stopped, connected := false })
      | _ => (RelayLeafError.OK, st)

/-- Modelled from the spec: `relay_leaf_destroy` — idempotent, releases the
session. -/
def specDestroy (st : SpecNative) (h : Nat) : Int × SpecNative :=
  match specLookup st h with
  | none => (RelayLeafError.OK, st)
  | some _ => (RelayLeafError.OK, none)

/-- All-zero stats struct used as the out-parameter default. -/
def emptyStats : RelayLeafStats :=
  { uptime_seconds := 0, total_streams := 0, bytes_sent := 0, bytes_received := 0,
    reconnect_count := 0, last_error := none, exit_points_json := none,
    node_addresses_json := none, active_streams := 0, connected_nodes := 0,
    connected := false }

/-- Snapshot of a session's counters as the native stats struct. -/
def statsOf (s : SpecSession) : RelayLeafStats :=
  { uptime_seconds := s.uptimeSeconds, total_streams := s.totalStreams,
    bytes_sent := s.bytesSent, bytes_received := s.bytesReceived,
    reconnect_count := s.reconnectCount, last_error := s.lastError,
    exit_points_json := some s.exitPointsJson,
    node_addresses_json := some s.nodeAddressesJson,
    active_streams := s.activeStreams, connected_nodes := s.connectedNodes,
    connected := s.connected }

/-- Modelled from the spec: `relay_leaf_get_stats` — fails with `NotStarted`
before `start`; otherwise returns a consistent snapshot of the counters. -/
def specGetStats (st : SpecNative) (h : Nat) : Int × RelayLeafStats × SpecNative :=
  match specLookup st h with
  | none => (RelayLeafError.INVALID_HANDLE, emptyStats, st)
  | some s =>
      match s.phase with
      | SpecPhase.created => (RelayLeafError.NOT_STARTED, emptyStats, st)
      | _ => (RelayLeafError.OK, statsOf s, st)

/-- Modelled from the spec: `relay_leaf_error_message` — human-readable
message per error code, NULL for unknown codes. -/
def specErrorMessage (code : Int) : Option String :=
  if code = RelayLeafError.OK then some "ok"
  else if code = RelayLeafError.NULL_PARAM then some "null parameter"
  else if code = RelayLeafError.INVALID_HANDLE then some "invalid handle"
  else if code = RelayLeafError.CREATE_FAILED then some "create failed"
  else if code = RelayLeafError.START_FAILED then some "start failed"
  else if code = RelayLeafError.ALREADY_STARTED then some "already started"
  else if code = RelayLeafError.NOT_STARTED then some "not started"
  else if code = RelayLeafError.INVALID_PROXY then some "invalid proxy"
  else if code = RelayLeafError.INTERNAL then some "internal error"
  else none

/-- Modelled from the spec: `relay_leaf_get_device_id` — device ID generated
at creation, available for a valid handle. -/
def specGetDeviceId (st : SpecNative) (h : Nat) : Option String × SpecNative :=
  match specLookup st h with
  | none => (none, st)
  | some _ => (some "device-id", st)

/-- The spec-modelled native library packaged as an oracle; its calls never
raise ctypes-level exceptions. -/
def specLib : NativeLib SpecNative where
  create := fun st v => Except.ok (specCreate st v)
  set_discovery_url := fun st h url => Except.ok (specSetDiscoveryUrl st h url)
  set_partner_id := fun st h pid => Except.ok (specSetPartnerId st h pid)
  add_proxy := fun st h url => Except.ok (specAddProxy st h url)
  start := fun st h => Except.ok (specStart st h)
  stop := fun st h => Except.ok (specStop st h)
  destroy := fun st h => Except.ok (specDestroy st h)
  get_stats := fun st h => Except.ok (specGetStats st h)
  error_message := fun _ code => specErrorMessage code
  version := fun _ => some "1.0.0"
  get_device_id := fun st h => Except.ok (specGetDeviceId st h)

/-- Modelled from the spec: background activity of the native library while a
session is started — discovery refresh, connection loss and reconnection,
stream open/close, byte transfer, uptime ticks. -/
inductive NetEvent where
  | tick
  | connect (nodes : Int)
  | disconnect (err : String)
  | streamOpened
  | streamClosed
  | sent (n : Nat)
  | received (n : Nat)
  | nodesUpdate (exitPoints nodeAddrs : String)
deriving Repr

/-- Modelled from the spec: effect of one background event on a started
session.  Stream close decrements only the active count; connection loss
increments the reconnect counter and records the last error. -/
def sessionStep (s : SpecSession) (e : NetEvent) : SpecSession :=
  match e with
  | NetEvent.tick => { s with uptimeSeconds := s.uptimeSeconds + 1 }
  | NetEvent.connect n => { s with connected := true, connectedNodes := n }
  | NetEvent.disconnect err =>
      { s with connected := false, reconnectCount := s.reconnectCount + 1,
               lastError := some err }
  | NetEvent.streamOpened =>
      { s with activeStreams := s.activeStreams + 1, totalStreams := s.totalStreams + 1 }
  | NetEvent.streamClosed => { s with activeStreams := max 0 (s.activeStreams - 1) }
  | NetEvent.sent n => { s with bytesSent := s.bytesSent + (n : Int) }
  | NetEvent.received n => { s with bytesReceived := s.bytesReceived + (n : Int) }
  | NetEvent.nodesUpdate e a => { s with exitPointsJson := e, nodeAddressesJson := a }

/-- Background events only act on a started session. -/
def specStep (st : SpecNative) (e : NetEvent) : SpecNative :=
  match st with
  | none => none
  | some s => if s.phase = SpecPhase.started then some (sessionStep s e) else some s

/-- Run a sequence of background events. -/
def specEvolve (st : SpecNative) (evs : List NetEvent) : SpecNative :=
  evs.foldl specStep st

/-- Lifetime total-stream counter of the native state. -/
def sessionTotalStreams : SpecNative → Int
  | some s => s.totalStreams
  | none => 0

/-- Reconnect counter of the native state. -/
def sessionReconnects : SpecNative → Int
  | some s => s.reconnectCount
  | none => 0

/-- Proxy list of the native state. -/
def sessionProxies : SpecNative → List String
  | some s => s.proxies
  | none => []

/-! ## The demo `main` program

`main` traps SIGINT/SIGTERM with a handler that clears `running`, then:
creates the wrapper, `create`, `get_device_id`, `set_discovery_url` (the
options hard-code a discovery URL, no partner ID and no proxies), `start`,
`get_version`, and polls `get_stats` while `running`; any exception jumps to
the `finally` block, which always runs `relay.stop()` then `relay.destroy()`.
The asynchronous signal is modelled by the number `polls` of loop iterations
performed before the handler's write to `running` is observed. -/

/-- The discovery URL hard-coded in the demo's `RelayOptions`. -/
def demoUrl : String := "https://api.prx.network/public/relay/nodes"

/-- One wrapper-method invocation of the demo program. -/
inductive MainOp where
  | createOp
  | deviceIdOp
  | discoveryUrlOp
  | startOp
  | versionOp
  | statsOp
  | stopOp
  | destroyOp
deriving DecidableEq, Repr

/-- The demo's polling loop: `get_stats` once per iteration until the signal
flag is observed (`polls` iterations) or an exception escapes the loop. -/
def demoLoop {σ : Type} (lib : NativeLib σ) :
    Nat → LeafState → σ → List MainOp × LeafState × σ
  | 0, leaf, st => ([], leaf, st)
  | Nat.succ n, leaf, st =>
      let o := RelayLeaf.get_stats lib leaf st
      match o.result with
      | Except.error _ => ([MainOp.statsOp], o.leaf, o.native)
      | Except.ok _ =>
          let r := demoLoop lib n o.leaf o.native
          (MainOp.statsOp :: r.1, r.2.1, r.2.2)

/-- The demo's `try` block: the sequence of wrapper calls actually made, cut
short at the first raised exception. -/
def demoBody {σ : Type} (lib : NativeLib σ) (st : σ) (polls : Nat) :
    List MainOp × LeafState × σ :=
  let c := RelayLeaf.create lib ⟨0⟩ st false
  match c.result with
  | Except.error _ => ([MainOp.createOp], c.leaf, c.native)
  | Except.ok _ =>
      let d := RelayLeaf.get_device_id lib c.leaf c.native
      match d.result with
      | Except.error _ => ([MainOp.createOp, MainOp.deviceIdOp], d.leaf, d.native)
      | Except.ok _ =>
          let u := RelayLeaf.set_discovery_url lib d.leaf d.native demoUrl
          match u.result with
          | Except.error _ =>
              ([MainOp.createOp, MainOp.deviceIdOp, MainOp.discoveryUrlOp], u.leaf, u.native)
          | Except.ok _ =>
              let s := RelayLeaf.start lib u.leaf u.native
              match s.result with
              | Except.error _ =>
                  ([MainOp.createOp, MainOp.deviceIdOp, MainOp.discoveryUrlOp,
                    MainOp.startOp], s.leaf, s.native)
              | Except.ok _ =>
                  let v := RelayLeaf.get_version lib s.leaf s.native
                  match v.result with
                  | Except.error _ =>
                      ([MainOp.createOp, MainOp.deviceIdOp, MainOp.discoveryUrlOp,
                        MainOp.startOp, MainOp.versionOp], v.leaf, v.native)
                  | Except.ok _ =>
                      let r := demoLoop lib polls v.leaf v.native
                      (MainOp.createOp :: MainOp.deviceIdOp :: MainOp.discoveryUrlOp ::
                        MainOp.startOp :: MainOp.versionOp :: r.1, r.2.1, r.2.2)

/-- The full demo trace: the `try` block followed by the `finally` block,
which calls `stop()` then `destroy()` (both total, so `finally` completes). -/
def mainTrace {σ : Type} (lib : NativeLib σ) (st : σ) (polls : Nat) : List MainOp :=
  (demoBody lib st polls).1 ++ [MainOp.stopOp, MainOp.destroyOp]

/-! ## Concrete oracles used to evaluate the theorems -/

/-- A trivial stateless oracle: every call succeeds with code 0. -/
def unitLib : NativeLib Unit where
  create := fun _ _ => Except.ok (0, 1, ())
  set_discovery_url := fun _ _ _ => Except.ok (0, ())
  set_partner_id := fun _ _ _ => Except.ok (0, ())
  add_proxy := fun _ _ _ => Except.ok (0, ())
  start := fun _ _ => Except.ok (0, ())
  stop := fun _ _ => Except.ok (0, ())
  destroy := fun _ _ => Except.ok (0, ())
  get_stats := fun _ _ => Except.ok (0, emptyStats, ())
  error_message := fun _ _ => none
  version := fun _ => none
  get_device_id := fun _ _ => Except.ok (none, ())

/-- A stateless oracle with an error-message table. -/
def msgLib : NativeLib Unit :=
  { unitLib with error_message := fun _ code =>
      if code = 2 then some "invalid handle" else none }

/-- A concrete created-but-not-started session. -/
def demoCreated : SpecSession :=
  { handle := 1, phase := SpecPhase.created, discoveryUrl := none,
    partnerId := none, proxies := ["socks5://u:p@127.0.0.1:1080"],
    uptimeSeconds := 0, totalStreams := 0, activeStreams := 0, bytesSent := 0,
    bytesReceived := 0, reconnectCount := 0, lastError := none,
    connected := false, connectedNodes := 0, exitPointsJson := "[]",
    nodeAddressesJson := "[]" }

/-- A concrete started session. -/
def demoStarted : SpecSession :=
  { demoCreated with
    phase := SpecPhase.started
    connected := true
    connectedNodes := 2
    totalStreams := 3
    activeStreams := 1
    reconnectCount := 1 }

/-- The dictionary a stats poll of `demoStarted` yields. -/
def demoDictA : StatsDict :=
  { connected := true, connected_nodes := 2, uptime_seconds := 0,
    active_streams := 1, total_streams := 3, bytes_sent := 0,
    bytes_received := 0, reconnect_count := 1, last_error := none,
    exit_points_json := some "[]", node_addresses_json := some "[]" }

/-- The dictionary a stats poll yields after one stream open and one
connection loss on `demoStarted`. -/
def demoDictB : StatsDict :=
  { connected := false, connected_nodes := 2, uptime_seconds := 0,
    active_streams := 2, total_streams := 4, bytes_sent := 0,
    bytes_received := 0, reconnect_count := 2, last_error := some "x",
    exit_points_json := some "[]", node_addresses_json := some "[]" }

/-! ## Helper lemmas -/

/-- `stop` always returns normally and leaves the wrapper state unchanged. -/
theorem RelayLeaf.stop_total {σ : Type} (lib : NativeLib σ) (leaf : LeafState) (st : σ) :
    (RelayLeaf.stop lib leaf st).result = Except.ok () ∧
    (RelayLeaf.stop lib leaf st).leaf = leaf := by
  by_cases h0 : leaf.handle = 0
  · simp [RelayLeaf.stop, h0]
  · simp only [RelayLeaf.stop, h0, if_false]
    cases lib.stop st leaf.handle <;> simp

/-- `destroy` always returns normally and clears the handle. -/
theorem RelayLeaf.destroy_total {σ : Type} (lib : NativeLib σ) (leaf : LeafState) (st : σ) :
    (RelayLeaf.destroy lib leaf st).result = Except.ok () ∧
    (RelayLeaf.destroy lib leaf st).leaf = ⟨0⟩ := by
  cases leaf with
  | mk h =>
    by_cases h0 : h = 0
    · subst h0; simp [RelayLeaf.destroy]
    · simp only [RelayLeaf.destroy, h0, if_false]
      cases lib.destroy st h <;> simp

/-! ## Claims -/

/-- C1: each of `set_discovery_url`, `set_partner_id`, `add_proxy` and
`start`, invoked while `self._handle` is falsy (not yet created or already
destroyed), raises `RuntimeError("Client not created")`, changes no state,
and performs no native call. -/
theorem config_ops_without_handle_raise {σ : Type} (lib : NativeLib σ) (leaf : LeafState)
    (st : σ) (url pid purl : String) (h : leaf.handle = 0) :
    RelayLeaf.set_discovery_url lib leaf st url =
      ⟨Except.error (PyError.runtimeError "Client not created"), leaf, st, []⟩ ∧
    RelayLeaf.set_partner_id lib leaf st pid =
      ⟨Except.error (PyError.runtimeError "Client not created"), leaf, st, []⟩ ∧
    RelayLeaf.add_proxy lib leaf st purl =
      ⟨Except.error (PyError.runtimeError "Client not created"), leaf, st, []⟩ ∧
    RelayLeaf.start lib leaf st =
      ⟨Except.error (PyError.runtimeError "Client not created"), leaf, st, []⟩ := by
  refine ⟨?_, ?_, ?_, ?_⟩ <;>
    simp [RelayLeaf.set_discovery_url, RelayLeaf.set_partner_id, RelayLeaf.add_proxy,
      RelayLeaf.start, h]

/-- Witness for C1 at a concrete oracle and state. -/
theorem config_ops_without_handle_raise_evaluated :
    RelayLeaf.set_discovery_url unitLib ⟨0⟩ () "u" =
      ⟨Except.error (PyError.runtimeError "Client not created"), ⟨0⟩, (), []⟩ ∧
    RelayLeaf.set_partner_id unitLib ⟨0⟩ () "p" =
      ⟨Except.error (PyError.runtimeError "Client not created"), ⟨0⟩, (), []⟩ ∧
    RelayLeaf.add_proxy unitLib ⟨0⟩ () "q" =
      ⟨Except.error (PyError.runtimeError "Client not created"), ⟨0⟩, (), []⟩ ∧
    RelayLeaf.start unitLib ⟨0⟩ () =
      ⟨Except.error (PyError.runtimeError "Client not created"), ⟨0⟩, (), []⟩ :=
  config_ops_without_handle_raise unitLib ⟨0⟩ () "u" "p" "q" rfl

/-- C7: the error-code constants of `RelayLeafError` are exactly OK=0,
NullParam=1, InvalidHandle=2, CreateFailed=3, StartFailed=4,
AlreadyStarted=5, NotStarted=6, InvalidProxy=7, Internal=99. -/
theorem relay_error_code_values :
    RelayLeafError.OK = 0 ∧ RelayLeafError.NULL_PARAM = 1 ∧
    RelayLeafError.INVALID_HANDLE = 2 ∧ RelayLeafError.CREATE_FAILED = 3 ∧
    RelayLeafError.START_FAILED = 4 ∧ RelayLeafError.ALREADY_STARTED = 5 ∧
    RelayLeafError.NOT_STARTED = 6 ∧ RelayLeafError.INVALID_PROXY = 7 ∧
    RelayLeafError.INTERNAL = 99 := by
  refine ⟨rfl, rfl, rfl, rfl, rfl, rfl, rfl, rfl, rfl⟩

/-- C10: with no session handle, `get_device_id` returns `""` and
`get_stats` returns `None`; neither raises nor makes a native call, in
contrast with the configuration operations, which raise. -/
theorem handleless_reads_return_defaults {σ : Type} (lib : NativeLib σ) (leaf : LeafState)
    (st : σ) (url : String) (h : leaf.handle = 0) :
    RelayLeaf.get_device_id lib leaf st = ⟨Except.ok "", leaf, st, []⟩ ∧
    RelayLeaf.get_stats lib leaf st = ⟨Except.ok none, leaf, st, []⟩ ∧
    RelayLeaf.set_discovery_url lib leaf st url =
      ⟨Except.error (PyError.runtimeError "Client not created"), leaf, st, []⟩ := by
  refine ⟨?_, ?_, ?_⟩ <;>
    simp [RelayLeaf.get_device_id, RelayLeaf.get_stats, RelayLeaf.set_discovery_url, h]

/-- Witness for C10 at a concrete oracle and state. -/
theorem handleless_reads_return_defaults_evaluated :
    RelayLeaf.get_device_id unitLib ⟨0⟩ () = ⟨Except.ok "", ⟨0⟩, (), []⟩ ∧
    RelayLeaf.get_stats unitLib ⟨0⟩ () = ⟨Except.ok none, ⟨0⟩, (), []⟩ ∧
    RelayLeaf.set_discovery_url unitLib ⟨0⟩ () "u" =
      ⟨Except.error (PyError.runtimeError "Client not created"), ⟨0⟩, (), []⟩ :=
  handleless_reads_return_defaults unitLib ⟨0⟩ () "u" rfl

/-- C2: `stop()` and `destroy()` never raise; `destroy()` clears the handle,
so after the first `destroy()` any later `stop()`/`destroy()` returns
immediately, with no native call and no state change; and under the
spec-modelled native library a repeated `stop()` leaves the native state
exactly as the first one did (no additional side effect). -/
theorem stop_destroy_idempotent {σ : Type} (lib : NativeLib σ) (leaf : LeafState) (st : σ)
    (leafB : LeafState) (stB : SpecNative) :
    (RelayLeaf.stop lib leaf st).result = Except.ok () ∧
    (RelayLeaf.stop lib leaf st).leaf = leaf ∧
    (RelayLeaf.destroy lib leaf st).result = Except.ok () ∧
    (RelayLeaf.destroy lib leaf st).leaf = ⟨0⟩ ∧
    RelayLeaf.stop lib ⟨0⟩ st = ⟨Except.ok (), ⟨0⟩, st, []⟩ ∧
    RelayLeaf.destroy lib ⟨0⟩ st = ⟨Except.ok (), ⟨0⟩, st, []⟩ ∧
    RelayLeaf.destroy lib (RelayLeaf.destroy lib leaf st).leaf (RelayLeaf.destroy lib leaf st).native
      = ⟨Except.ok (), ⟨0⟩, (RelayLeaf.destroy lib leaf st).native, []⟩ ∧
    (RelayLeaf.stop specLib leafB ((RelayLeaf.stop specLib leafB stB).native)).native
      = (RelayLeaf.stop specLib leafB stB).native := by
  refine ⟨(RelayLeaf.stop_total lib leaf st).1, (RelayLeaf.stop_total lib leaf st).2,
    (RelayLeaf.destroy_total lib leaf st).1, (RelayLeaf.destroy_total lib leaf st).2,
    by simp [RelayLeaf.stop], by simp [RelayLeaf.destroy], ?_, ?_⟩
  · rw [(RelayLeaf.destroy_total lib leaf st).2]
    simp [RelayLeaf.destroy]
  · by_cases h0 : leafB.handle = 0
    · simp [RelayLeaf.stop, h0]
    · simp only [RelayLeaf.stop, h0, if_false, specLib]
      cases stB with
      | none => simp [specStop, specLookup]
      | some s =>
          by_cases hh : s.handle = leafB.handle
          · cases hp : s.phase <;>
              simp [specStop, specLookup, hh, hp]
          · simp [specStop, specLookup, hh]

/-- C5: `_check` raises iff the native code is non-zero; the raised
`RuntimeError` message embeds the text of `get_error_text`, which is the
human-readable message looked up from the code when one is available, and
otherwise the fallback `"error_code=<code>"` containing the code. -/
theorem check_raises_iff_nonzero {σ : Type} (lib : NativeLib σ) (st : σ) (code : Int)
    (api : String) :
    (((RelayLeaf.check lib st code api).1 = Except.ok ()) ↔ code = 0) ∧
    (code ≠ 0 →
      (RelayLeaf.check lib st code api).1 = Except.error (PyError.runtimeError
        (api ++ " failed: " ++ toString code ++ " (" ++
          (RelayLeaf.get_error_text lib st code).1 ++ ")"))) ∧
    (∀ m, lib.error_message st code = some m → m ≠ "" →
      (RelayLeaf.get_error_text lib st code).1 = m) ∧
    (lib.error_message st code = none →
      (RelayLeaf.get_error_text lib st code).1 = "error_code=" ++ toString code) ∧
    (lib.error_message st code = some "" →
      (RelayLeaf.get_error_text lib st code).1 = "error_code=" ++ toString code) := by
  refine ⟨?_, ?_, ?_, ?_, ?_⟩
  · by_cases hc : code = 0 <;> simp [RelayLeaf.check, hc]
  · intro hc; simp [RelayLeaf.check, hc]
  · intro m hm hme; simp [RelayLeaf.get_error_text, hm, hme]
  · intro hm; simp [RelayLeaf.get_error_text, hm]
  · intro hm; simp [RelayLeaf.get_error_text, hm]

/-- Witness for C5: code 2 with a message table raises the composed text. -/
theorem check_raises_iff_nonzero_evaluated :
    (RelayLeaf.check msgLib () 2 "relay_leaf_start").1 = Except.error (PyError.runtimeError
      ("relay_leaf_start" ++ " failed: " ++ toString (2 : Int) ++ " (" ++
        (RelayLeaf.get_error_text msgLib () 2).1 ++ ")")) :=
  (check_raises_iff_nonzero msgLib () 2 "relay_leaf_start").2.1 (by decide)

/-- C6: a successful `get_stats()` returns a record with exactly the eleven
fields, each copied from the corresponding field of the native stats
struct. -/
theorem get_stats_copies_native_fields {σ : Type} (lib : NativeLib σ) (leaf : LeafState)
    (st : σ) (ns : RelayLeafStats) (stAfter : σ)
    (h0 : leaf.handle ≠ 0)
    (hc : lib.get_stats st leaf.handle = Except.ok (0, ns, stAfter)) :
    (RelayLeaf.get_stats lib leaf st).result = Except.ok (some
      { connected := ns.connected, connected_nodes := ns.connected_nodes,
        uptime_seconds := ns.uptime_seconds, active_streams := ns.active_streams,
        total_streams := ns.total_streams, bytes_sent := ns.bytes_sent,
        bytes_received := ns.bytes_received, reconnect_count := ns.reconnect_count,
        last_error := ns.last_error, exit_points_json := ns.exit_points_json,
        node_addresses_json := ns.node_addresses_json }) := by
  simp [RelayLeaf.get_stats, h0, hc]

/-- Witness for C6 at a concrete oracle returning the all-zero struct. -/
theorem get_stats_copies_native_fields_evaluated :
    (RelayLeaf.get_stats unitLib ⟨1⟩ ()).result = Except.ok (some
      { connected := false, connected_nodes := 0, uptime_seconds := 0,
        active_streams := 0, total_streams := 0, bytes_sent := 0,
        bytes_received := 0, reconnect_count := 0, last_error := none,
        exit_points_json := none, node_addresses_json := none }) :=
  get_stats_copies_native_fields unitLib ⟨1⟩ () emptyStats () (by decide) rfl

/-- C3: on a created session, `add_proxy` returns `True` exactly when the
native call reports code 0; on a non-zero code (`InvalidProxy`) it returns
`False` without raising, the wrapper and native session states are
unchanged — in particular the previously accepted proxies — and the session
remains startable (`start` still reports `OK`). -/
theorem add_proxy_invalid_is_isolated (leaf : LeafState) (st : SpecNative)
    (s : SpecSession) (url : String)
    (hst : st = some s) (hph : s.phase = SpecPhase.created)
    (hh : leaf.handle = s.handle) (h0 : s.handle ≠ 0) :
    ((RelayLeaf.add_proxy specLib leaf st url).result = Except.ok true ↔
      (specAddProxy st leaf.handle url).1 = 0) ∧
    ((specAddProxy st leaf.handle url).1 ≠ 0 →
      (specAddProxy st leaf.handle url).1 = RelayLeafError.INVALID_PROXY ∧
      (RelayLeaf.add_proxy specLib leaf st url).result = Except.ok false ∧
      (RelayLeaf.add_proxy specLib leaf st url).leaf = leaf ∧
      (RelayLeaf.add_proxy specLib leaf st url).native = st ∧
      sessionProxies (RelayLeaf.add_proxy specLib leaf st url).native = sessionProxies st ∧
      (specStart (RelayLeaf.add_proxy specLib leaf st url).native leaf.handle).1 =
        RelayLeafError.OK) := by
  subst hst
  have hl0 : ¬ leaf.handle = 0 := by rw [hh]; exact h0
  by_cases hv : specValidProxy url
  · constructor
    · simp [RelayLeaf.add_proxy, hl0, h0, specLib, specAddProxy, specLookup, hh, hph, hv,
        RelayLeafError.OK]
    · intro hrc
      exfalso
      apply hrc
      simp [specAddProxy, specLookup, hh, hph, hv, RelayLeafError.OK]
  · have hrc7 : (specAddProxy (some s) leaf.handle url).1 = RelayLeafError.INVALID_PROXY := by
      simp [specAddProxy, specLookup, hh, hph, hv]
    constructor
    · rw [hrc7]
      simp [RelayLeaf.add_proxy, hl0, h0, specLib, specAddProxy, specLookup, hh, hph, hv,
        RelayLeafError.INVALID_PROXY]
    · intro _
      refine ⟨hrc7, ?_, ?_, ?_, ?_, ?_⟩ <;>
        simp [RelayLeaf.add_proxy, hl0, h0, specLib, specAddProxy, specLookup, specStart,
          hh, hph, hv, RelayLeafError.INVALID_PROXY, RelayLeafError.OK]

/-- Witness for C3: `"not-a-url"` on a concrete created session. -/
theorem add_proxy_invalid_is_isolated_evaluated :
    (specAddProxy (some demoCreated) 1 "not-a-url").1 = RelayLeafError.INVALID_PROXY ∧
    (RelayLeaf.add_proxy specLib ⟨1⟩ (some demoCreated) "not-a-url").result = Except.ok false ∧
    (RelayLeaf.add_proxy specLib ⟨1⟩ (some demoCreated) "not-a-url").leaf = ⟨1⟩ ∧
    (RelayLeaf.add_proxy specLib ⟨1⟩ (some demoCreated) "not-a-url").native = some demoCreated ∧
    sessionProxies (RelayLeaf.add_proxy specLib ⟨1⟩ (some demoCreated) "not-a-url").native =
      sessionProxies (some demoCreated) ∧
    (specStart (RelayLeaf.add_proxy specLib ⟨1⟩ (some demoCreated) "not-a-url").native 1).1 =
      RelayLeafError.OK :=
  (add_proxy_invalid_is_isolated ⟨1⟩ (some demoCreated) demoCreated "not-a-url"
    rfl rfl rfl (by decide)).2 (by decide)

/-- C4: on a created-but-not-started session, the native stats call reports
`NotStarted` and the wrapper's `get_stats()` returns no statistics
dictionary. -/
theorem get_stats_before_start_not_started (leaf : LeafState) (st : SpecNative)
    (s : SpecSession)
    (hst : st = some s) (hph : s.phase = SpecPhase.created)
    (hh : leaf.handle = s.handle) (h0 : s.handle ≠ 0) :
    (specGetStats st leaf.handle).1 = RelayLeafError.NOT_STARTED ∧
    (RelayLeaf.get_stats specLib leaf st).result = Except.ok none := by
  subst hst
  have hl0 : ¬ leaf.handle = 0 := by rw [hh]; exact h0
  constructor
  · simp [specGetStats, specLookup, hh, hph]
  · simp [RelayLeaf.get_stats, hl0, h0, specLib, specGetStats, specLookup, hh, hph,
      RelayLeafError.NOT_STARTED]

/-- Witness for C4 on a concrete created session. -/
theorem get_stats_before_start_not_started_evaluated :
    (specGetStats (some demoCreated) 1).1 = RelayLeafError.NOT_STARTED ∧
    (RelayLeaf.get_stats specLib ⟨1⟩ (some demoCreated)).result = Except.ok none :=
  get_stats_before_start_not_started ⟨1⟩ (some demoCreated) demoCreated rfl rfl rfl (by decide)

/-- The polling loop performs only `get_stats` calls. -/
theorem demoLoop_only_stats {σ : Type} (lib : NativeLib σ) :
    ∀ (n : Nat) (leaf : LeafState) (st : σ),
      ∀ x ∈ (demoLoop lib n leaf st).1, x = MainOp.statsOp := by
  intro n
  induction n with
  | zero => intro leaf st; simp [demoLoop]
  | succ k ih =>
      intro leaf st
      simp only [demoLoop]
      cases (RelayLeaf.get_stats lib leaf st).result with
      | error e => simp
      | ok v =>
          intro x hx
          simp only [List.mem_cons] at hx
          rcases hx with h | h
          · exact h
          · exact ih _ _ x h

/-- The demo's `try` block never calls `stop` or `destroy`. -/
theorem demoBody_no_teardown {σ : Type} (lib : NativeLib σ) (st : σ) (polls : Nat) :
    ∀ x ∈ (demoBody lib st polls).1, x ≠ MainOp.stopOp ∧ x ≠ MainOp.destroyOp := by
  simp only [demoBody]
  cases (RelayLeaf.create lib ⟨0⟩ st false).result with
  | error e => simp
  | ok a =>
    cases (RelayLeaf.get_device_id lib (RelayLeaf.create lib ⟨0⟩ st false).leaf
        (RelayLeaf.create lib ⟨0⟩ st false).native).result with
    | error e => simp
    | ok b =>
      cases (RelayLeaf.set_discovery_url lib
          (RelayLeaf.get_device_id lib (RelayLeaf.create lib ⟨0⟩ st false).leaf
            (RelayLeaf.create lib ⟨0⟩ st false).native).leaf
          (RelayLeaf.get_device_id lib (RelayLeaf.create lib ⟨0⟩ st false).leaf
            (RelayLeaf.create lib ⟨0⟩ st false).native).native demoUrl).result with
      | error e => simp
      | ok c =>
        cases (RelayLeaf.start lib
            (RelayLeaf.set_discovery_url lib
              (RelayLeaf.get_device_id lib (RelayLeaf.create lib ⟨0⟩ st false).leaf
                (RelayLeaf.create lib ⟨0⟩ st false).native).leaf
              (RelayLeaf.get_device_id lib (RelayLeaf.create lib ⟨0⟩ st false).leaf
                (RelayLeaf.create lib ⟨0⟩ st false).native).native demoUrl).leaf
            (RelayLeaf.set_discovery_url lib
              (RelayLeaf.get_device_id lib (RelayLeaf.create lib ⟨0⟩ st false).leaf
                (RelayLeaf.create lib ⟨0⟩ st false).native).leaf
              (RelayLeaf.get_device_id lib (RelayLeaf.create lib ⟨0⟩ st false).leaf
                (RelayLeaf.create lib ⟨0⟩ st false).native).native demoUrl).native).result with
        | error e => simp
        | ok d =>
          cases (RelayLeaf.get_version lib
              (RelayLeaf.start lib
                (RelayLeaf.set_discovery_url lib
                  (RelayLeaf.get_device_id lib (RelayLeaf.create lib ⟨0⟩ st false).leaf
                    (RelayLeaf.create lib ⟨0⟩ st false).native).leaf
                  (RelayLeaf.get_device_id lib (RelayLeaf.create lib ⟨0⟩ st false).leaf
                    (RelayLeaf.create lib ⟨0⟩ st false).native).native demoUrl).leaf
                (RelayLeaf.set_discovery_url lib
                  (RelayLeaf.get_device_id lib (RelayLeaf.create lib ⟨0⟩ st false).leaf
                    (RelayLeaf.create lib ⟨0⟩ st false).native).leaf
                  (RelayLeaf.get_device_id lib (RelayLeaf.create lib ⟨0⟩ st false).leaf
                    (RelayLeaf.create lib ⟨0⟩ st false).native).native demoUrl).native).leaf
              (RelayLeaf.start lib
                (RelayLeaf.set_discovery_url lib
                  (RelayLeaf.get_device_id lib (RelayLeaf.create lib ⟨0⟩ st false).leaf
                    (RelayLeaf.create lib ⟨0⟩ st false).native).leaf
                  (RelayLeaf.get_device_id lib (RelayLeaf.create lib ⟨0⟩ st false).leaf
                    (RelayLeaf.create lib ⟨0⟩ st false).native).native demoUrl).leaf
                (RelayLeaf.set_discovery_url lib
                  (RelayLeaf.get_device_id lib (RelayLeaf.create lib ⟨0⟩ st false).leaf
                    (RelayLeaf.create lib ⟨0⟩ st false).native).leaf
                  (RelayLeaf.get_device_id lib (RelayLeaf.create lib ⟨0⟩ st false).leaf
                    (RelayLeaf.create lib ⟨0⟩ st false).native).native demoUrl).native).native).result with
          | error e => simp
          | ok f =>
            intro x hx
            simp only [List.mem_cons] at hx
            rcases hx with h | h | h | h | h | h
            · subst h; exact ⟨by decide, by decide⟩
            · subst h; exact ⟨by decide, by decide⟩
            · subst h; exact ⟨by decide, by decide⟩
            · subst h; exact ⟨by decide, by decide⟩
            · subst h; exact ⟨by decide, by decide⟩
            · have := demoLoop_only_stats lib polls _ _ x h
              subst this; exact ⟨by decide, by decide⟩

/-- C8: every run of the demo produces a trace that ends with `stop()`
followed immediately by `destroy()`, and neither teardown call occurs
anywhere else: in particular `destroy()` is never performed before
`stop()`. -/
theorem main_stops_before_destroy {σ : Type} (lib : NativeLib σ) (st : σ) (polls : Nat) :
    ∃ body, mainTrace lib st polls = body ++ [MainOp.stopOp, MainOp.destroyOp] ∧
      MainOp.stopOp ∉ body ∧ MainOp.destroyOp ∉ body := by
  refine ⟨(demoBody lib st polls).1, rfl, ?_, ?_⟩
  · intro hmem
    exact (demoBody_no_teardown lib st polls _ hmem).1 rfl
  · intro hmem
    exact (demoBody_no_teardown lib st polls _ hmem).2 rfl

/-- One background event never decreases the lifetime counters. -/
theorem counters_mono_step (st : SpecNative) (e : NetEvent) :
    sessionTotalStreams st ≤ sessionTotalStreams (specStep st e) ∧
    sessionReconnects st ≤ sessionReconnects (specStep st e) := by
  cases st with
  | none => simp [specStep, sessionTotalStreams, sessionReconnects]
  | some s =>
      by_cases hp : s.phase = SpecPhase.started
      · cases e <;>
          simp [specStep, hp, sessionStep, sessionTotalStreams, sessionReconnects]
      · simp [specStep, hp, sessionTotalStreams, sessionReconnects]

/-- A whole event sequence never decreases the lifetime counters. -/
theorem counters_mono_evolve (st : SpecNative) (evs : List NetEvent) :
    sessionTotalStreams st ≤ sessionTotalStreams (specEvolve st evs) ∧
    sessionReconnects st ≤ sessionReconnects (specEvolve st evs) := by
  induction evs generalizing st with
  | nil => simp [specEvolve]
  | cons e t ih =>
      have h1 := counters_mono_step st e
      have h2 := ih (specStep st e)
      have he : specEvolve st (e :: t) = specEvolve (specStep st e) t := rfl
      rw [he]
      exact ⟨le_trans h1.1 h2.1, le_trans h1.2 h2.2⟩

/-- A successful poll reports exactly the native session's counters. -/
theorem get_stats_spec_counters (leaf : LeafState) (st : SpecNative) (d : StatsDict)
    (h : (RelayLeaf.get_stats specLib leaf st).result = Except.ok (some d)) :
    d.total_streams = sessionTotalStreams st ∧
    d.reconnect_count = sessionReconnects st := by
  by_cases h0 : leaf.handle = 0
  · simp [RelayLeaf.get_stats, h0] at h
  · cases st with
    | none =>
        simp [RelayLeaf.get_stats, h0, specLib, specGetStats, specLookup,
          RelayLeafError.INVALID_HANDLE] at h
    | some s =>
        by_cases hh : s.handle = leaf.handle
        · cases hp : s.phase with
          | created =>
              simp [RelayLeaf.get_stats, h0, specLib, specGetStats, specLookup, hh, hp,
                RelayLeafError.NOT_STARTED] at h
          | started =>
              simp [RelayLeaf.get_stats, h0, specLib, specGetStats, specLookup, hh, hp,
                statsOf, RelayLeafError.OK] at h
              subst h
              simp [sessionTotalStreams, sessionReconnects]
          | stopped =>
              simp [RelayLeaf.get_stats, h0, specLib, specGetStats, specLookup, hh, hp,
                statsOf, RelayLeafError.OK] at h
              subst h
              simp [sessionTotalStreams, sessionReconnects]
        · simp [RelayLeaf.get_stats, h0, specLib, specGetStats, specLookup, hh,
            RelayLeafError.INVALID_HANDLE] at h

/-- C9: across any two successful `get_stats()` polls separated by background
activity within one session lifetime, the reported `total_streams` and
`reconnect_count` are non-decreasing. -/
theorem stats_counters_monotone (leaf : LeafState) (st : SpecNative) (evs : List NetEvent)
    (dFst dSnd : StatsDict)
    (hFst : (RelayLeaf.get_stats specLib leaf st).result = Except.ok (some dFst))
    (hSnd : (RelayLeaf.get_stats specLib leaf (specEvolve st evs)).result =
      Except.ok (some dSnd)) :
    dFst.total_streams ≤ dSnd.total_streams ∧
    dFst.reconnect_count ≤ dSnd.reconnect_count := by
  have e1 := get_stats_spec_counters leaf st dFst hFst
  have e2 := get_stats_spec_counters leaf (specEvolve st evs) dSnd hSnd
  have m := counters_mono_evolve st evs
  constructor
  · rw [e1.1, e2.1]; exact m.1
  · rw [e1.2, e2.2]; exact m.2

/-- Witness for C9: two concrete polls around a stream open and a
reconnect. -/
theorem stats_counters_monotone_evaluated :
    demoDictA.total_streams ≤ demoDictB.total_streams ∧
    demoDictA.reconnect_count ≤ demoDictB.reconnect_count :=
  stats_counters_monotone ⟨1⟩ (some demoStarted)
    [NetEvent.streamOpened, NetEvent.disconnect "x"] demoDictA demoDictB rfl rfl
